import Mathlib

/-!
Shallow embedding of the quckapp notification-service dispatch core
(src/notification/notification.service.ts) together with the relevant
shape of the push provider result (src/providers/firebase.provider.ts).

Timestamps are modelled as natural numbers (milliseconds).  The TypeScript
repository, the bull queue and the in-memory rate-limit map are modelled as
explicit state: a list of notification records, a list of submitted queue
jobs, and a function from user id to an optional rate-limit entry.  External
collaborators (preference gate, device directory, channel providers) are
parameters of the operations, mirroring the injected services.
-/

/-- The type column of a notification (entities/notification.entity). -/
inductive NotificationType
  | push
  | email
  | sms
  | inApp
deriving DecidableEq

/-- The status column of a notification (entities/notification.entity). -/
inductive NotificationStatus
  | pending
  | queued
  | sent
  | delivered
  | failed
  | read
deriving DecidableEq

/-- A persisted notification record.  The opaque json `data` payload is
modelled as an association list of string keys to string values (the only
accesses the service performs are string-keyed lookups). -/
structure Notification where
  id : String
  userId : String
  workspaceId : Option String
  type : NotificationType
  title : String
  body : String
  data : List (String × String)
  priority : Option String
  category : Option String
  actionUrl : Option String
  imageUrl : Option String
  status : NotificationStatus
  errorMessage : Option String
  retryCount : Nat
  scheduledAt : Option Nat
  expiresAt : Option Nat
  sentAt : Option Nat
  readAt : Option Nat
  deliveredAt : Option Nat
  createdAt : Nat
deriving DecidableEq

/-- A job submitted to the bull queue by notificationQueue.add.  The job
options are optional because sendBulk submits jobs without options. -/
structure QueueJob where
  name : String
  notificationId : String
  priority : Option Nat
  attempts : Option Nat
  backoffType : Option String
  backoffDelay : Option Nat
deriving DecidableEq

/-- One entry of the in-memory per-user rate-limit map. -/
structure RateEntry where
  count : Nat
  resetAt : Nat
deriving DecidableEq

/-- RATE_LIMIT_WINDOW = 60 * 1000 (one minute, in milliseconds). -/
def RATE_LIMIT_WINDOW : Nat := 60 * 1000

/-- RATE_LIMIT_MAX = 100 notifications per user per minute. -/
def RATE_LIMIT_MAX : Nat := 100

/-- The mutable state owned by NotificationService: the repository contents,
the queue submissions so far, and the userRateLimits map. -/
structure ServiceState where
  repo : List Notification
  queue : List QueueJob
  rateLimits : String → Option RateEntry

/-- Repository save (upsert by id): replace the record with the same id if
one exists, otherwise append. -/
def saveRepo (repo : List Notification) (n : Notification) : List Notification :=
  if repo.any (fun m => m.id == n.id) then
    repo.map (fun m => if m.id == n.id then n else m)
  else
    repo ++ [n]

/-- Repository findOne by id. -/
def findById (repo : List Notification) (nid : String) : Option Notification :=
  repo.find? (fun m => m.id == nid)

/-- checkRateLimit (notification.service.ts lines 399-418), acting on the
whole userRateLimits map.  Returns the admission verdict and the updated
map. -/
def checkRateLimit (userId : String) (now : Nat)
    (limits : String → Option RateEntry) :
    Bool × (String → Option RateEntry) :=
  match limits userId with
  | none =>
      (true, fun u => if u == userId then
        some { count := 1, resetAt := now + RATE_LIMIT_WINDOW } else limits u)
  | some userLimit =>
      if userLimit.resetAt < now then
        (true, fun u => if u == userId then
          some { count := 1, resetAt := now + RATE_LIMIT_WINDOW } else limits u)
      else if RATE_LIMIT_MAX ≤ userLimit.count then
        (false, limits)
      else
        (true, fun u => if u == userId then
          some { count := userLimit.count + 1, resetAt := userLimit.resetAt }
        else limits u)

/-- getPriorityValue (notification.service.ts lines 420-433). -/
def getPriorityValue (priority : Option String) : Nat :=
  match priority with
  | some "urgent" => 1
  | some "high" => 2
  | some "normal" => 3
  | some "low" => 4
  | _ => 3

/-- The dispatch-job submission shared by send, the scheduled sweep and
retryNotification: a send job with priority from getPriorityValue,
3 attempts and exponential backoff starting at 1000 ms. -/
def mkDispatchJob (nid : String) (priority : Option String) : QueueJob :=
  { name := "send"
    notificationId := nid
    priority := some (getPriorityValue priority)
    attempts := some 3
    backoffType := some "exponential"
    backoffDelay := some 1000 }

/-- The request body of send (dto/notification.dto, SendNotificationDto). -/
structure SendDto where
  userId : String
  workspaceId : Option String
  type : NotificationType
  title : String
  body : String
  data : List (String × String)
  priority : Option String
  category : Option String
  actionUrl : Option String
  imageUrl : Option String
  scheduledAt : Option Nat
  expiresAt : Option Nat
deriving DecidableEq

/-- The public projection returned by toResponse. -/
structure NotificationResponse where
  id : String
  userId : String
  workspaceId : Option String
  type : NotificationType
  status : NotificationStatus
  priority : Option String
  title : String
  body : String
  data : List (String × String)
  category : Option String
  actionUrl : Option String
  imageUrl : Option String
  sentAt : Option Nat
  readAt : Option Nat
  createdAt : Nat
deriving DecidableEq

/-- toResponse (notification.service.ts lines 435-453). -/
def toResponse (n : Notification) : NotificationResponse :=
  { id := n.id, userId := n.userId, workspaceId := n.workspaceId
    type := n.type, status := n.status, priority := n.priority
    title := n.title, body := n.body, data := n.data
    category := n.category, actionUrl := n.actionUrl, imageUrl := n.imageUrl
    sentAt := n.sentAt, readAt := n.readAt, createdAt := n.createdAt }

/-- The record constructed by notificationRepo.create inside send:
status is PENDING when scheduledAt is present, QUEUED otherwise; error and
timestamp fields start unset and retryCount starts at zero. -/
def createFromDto (dto : SendDto) (freshId : String) (now : Nat) :
    Notification :=
  { id := freshId
    userId := dto.userId
    workspaceId := dto.workspaceId
    type := dto.type
    title := dto.title
    body := dto.body
    data := dto.data
    priority := dto.priority
    category := dto.category
    actionUrl := dto.actionUrl
    imageUrl := dto.imageUrl
    status := if dto.scheduledAt.isSome then NotificationStatus.pending
      else NotificationStatus.queued
    errorMessage := none
    retryCount := 0
    scheduledAt := dto.scheduledAt
    expiresAt := dto.expiresAt
    sentAt := none
    readAt := none
    deliveredAt := none
    createdAt := now }

/-- send (notification.service.ts lines 44-95).  The preference gate is the
parameter canSend; freshId is the id the repository assigns to the new
record; now is the wall clock.  The admission failures return none without
touching the repository or the queue; the function is total, so no error is
ever raised to the caller. -/
def send (canSend : String → Option String → NotificationType → Bool)
    (dto : SendDto) (freshId : String) (now : Nat) (st : ServiceState) :
    Option NotificationResponse × ServiceState :=
  let rl := checkRateLimit dto.userId now st.rateLimits
  if !rl.1 then
    (none, { st with rateLimits := rl.2 })
  else if !(canSend dto.userId dto.workspaceId dto.type) then
    (none, { st with rateLimits := rl.2 })
  else
    let n := createFromDto dto freshId now
    let repo2 := saveRepo st.repo n
    let queue2 :=
      if dto.scheduledAt.isNone then
        st.queue ++ [mkDispatchJob freshId dto.priority]
      else st.queue
    (some (toResponse n),
     { repo := repo2, queue := queue2, rateLimits := rl.2 })

/-- Payload handed to the push provider (firebase.provider PushPayload,
restricted to the fields the service fills in). -/
structure PushPayload where
  title : String
  body : String
  data : List (String × String)
  imageUrl : Option String
  priority : String
deriving DecidableEq

/-- Multicast result returned by the push provider (firebase.provider
PushResult); errors pairs a token with its error message. -/
structure PushResult where
  success : Bool
  successCount : Nat
  failureCount : Nat
  failedTokens : List String
  errors : List (String × String)
deriving DecidableEq

/-- Payload handed to the email provider. -/
structure EmailPayload where
  «to» : String
  subject : String
  text : String
  html : String
deriving DecidableEq

/-- Structured result of the email provider. -/
structure EmailResult where
  success : Bool
  messageId : Option String
  error : Option String
deriving DecidableEq

/-- Payload handed to the sms provider. -/
structure SmsPayload where
  «to» : String
  body : String
deriving DecidableEq

/-- Structured result of the sms provider. -/
structure SmsResult where
  success : Bool
  messageId : Option String
  error : Option String
deriving DecidableEq

/-- A call made to an external channel provider during processing.  The
providers catch their own SDK errors and return structured results, so a
provider call never raises. -/
inductive ProviderCall
  | push (tokens : List String) (payload : PushPayload)
  | email (payload : EmailPayload)
  | sms (payload : SmsPayload)
deriving DecidableEq

/-- The external collaborators injected into the service: device directory
and the three channel providers. -/
structure Env where
  getUserDevices : String → List String
  sendToDevices : List String → PushPayload → PushResult
  sendEmail : EmailPayload → EmailResult
  sendSms : SmsPayload → SmsResult

/-- Javascript falsy coercion on an optional string: none and the empty
string both fall back (x || fallback). -/
def errorOr (e : Option String) (fallback : String) : String :=
  match e with
  | none => fallback
  | some s => if s == "" then fallback else s

/-- result.errors[0] with the || fallback of the service code. -/
def firstErrorOr (errors : List (String × String)) (fallback : String) :
    String :=
  match errors with
  | [] => fallback
  | (_, e) :: _ => if e == "" then fallback else e

/-- Set key k to v in an association list, object-style (replace if the key
exists, append otherwise). -/
def setKey (l : List (String × String)) (k v : String) :
    List (String × String) :=
  if l.any (fun p => p.1 == k) then
    l.map (fun p => if p.1 == k then (k, v) else p)
  else l ++ [(k, v)]

/-- Lookup of a string field of notification.data; the empty string stands
for a falsy/absent value, matching the javascript accesses. -/
def dataStr (n : Notification) (k : String) : String :=
  match n.data.find? (fun p => p.1 == k) with
  | some p => p.2
  | none => ""

/-- The stringData map built in sendPushNotification: the data payload plus
notificationId and, when present, actionUrl. -/
def buildStringData (n : Notification) : List (String × String) :=
  let d := setKey n.data "notificationId" n.id
  match n.actionUrl with
  | some u => setKey d "actionUrl" u
  | none => d

/-- The payload built inside sendPushNotification: title, body, the
stringified data map, the image url, and high priority for urgent or high
records. -/
def pushPayloadOf (n : Notification) : PushPayload :=
  { title := n.title
    body := n.body
    data := buildStringData n
    imageUrl := n.imageUrl
    priority :=
      if n.priority == some "urgent" || n.priority == some "high" then
        "high"
      else "normal" }

/-- sendPushNotification (notification.service.ts lines 292-343).  Returns
the mutated record and the provider calls made. -/
def sendPushNotification (env : Env) (n : Notification) :
    Notification × List ProviderCall :=
  let tokens := env.getUserDevices n.userId
  if tokens.length = 0 then
    ({ n with status := NotificationStatus.failed
              errorMessage := some "No registered devices" }, [])
  else
    let payload := pushPayloadOf n
    let result := env.sendToDevices tokens payload
    let n2 :=
      if result.success then
        { n with status := NotificationStatus.sent }
      else if 0 < result.successCount then
        { n with status := NotificationStatus.sent
                 errorMessage := some ("Partial delivery: " ++
                   toString result.failureCount ++ " failed") }
      else
        { n with status := NotificationStatus.failed
                 errorMessage :=
                   some (firstErrorOr result.errors "All devices failed") }
    (n2, [ProviderCall.push tokens payload])

/-- sendEmailNotification (notification.service.ts lines 345-371). -/
def sendEmailNotification (env : Env) (n : Notification) :
    Notification × List ProviderCall :=
  let email := dataStr n "email"
  if email == "" then
    ({ n with status := NotificationStatus.failed
              errorMessage := some "No email address provided" }, [])
  else
    let payload : EmailPayload :=
      { «to» := email
        subject := n.title
        text := n.body
        html :=
          if dataStr n "htmlBody" == "" then "<p>" ++ n.body ++ "</p>"
          else dataStr n "htmlBody" }
    let result := env.sendEmail payload
    let n2 :=
      if result.success then
        { n with status := NotificationStatus.sent }
      else
        { n with status := NotificationStatus.failed
                 errorMessage :=
                   some (errorOr result.error "Email sending failed") }
    (n2, [ProviderCall.email payload])

/-- sendSmsNotification (notification.service.ts lines 373-396). -/
def sendSmsNotification (env : Env) (n : Notification) :
    Notification × List ProviderCall :=
  let phone := dataStr n "phone"
  if phone == "" then
    ({ n with status := NotificationStatus.failed
              errorMessage := some "No phone number provided" }, [])
  else
    let payload : SmsPayload :=
      { «to» := phone, body := n.title ++ "\n\n" ++ n.body }
    let result := env.sendSms payload
    let n2 :=
      if result.success then
        { n with status := NotificationStatus.sent }
      else
        { n with status := NotificationStatus.failed
                 errorMessage :=
                   some (errorOr result.error "SMS sending failed") }
    (n2, [ProviderCall.sms payload])

/-- The expiry test notification.expiresAt && notification.expiresAt < now. -/
def hasExpired (expiresAt : Option Nat) (now : Nat) : Bool :=
  match expiresAt with
  | some e => decide (e < now)
  | none => false

/-- processNotification (notification.service.ts lines 241-290).  Returns
the updated state and the provider calls made.  The catch branch of the
source is unreachable here because the embedded providers return structured
results and never raise (matching the provider sources, which catch their
own SDK errors). -/
def processNotification (env : Env) (nid : String) (now : Nat)
    (st : ServiceState) : ServiceState × List ProviderCall :=
  match findById st.repo nid with
  | none => (st, [])
  | some n =>
    if hasExpired n.expiresAt now then
      ({ st with repo := saveRepo st.repo ({ n with
          status := NotificationStatus.failed
          errorMessage := some "Notification expired" }) }, [])
    else
      let r :=
        match n.type with
        | NotificationType.push => sendPushNotification env n
        | NotificationType.email => sendEmailNotification env n
        | NotificationType.sms => sendSmsNotification env n
        | NotificationType.inApp =>
            ({ n with status := NotificationStatus.delivered
                      deliveredAt := some now }, [])
      let n2 := { r.1 with sentAt := some now }
      ({ st with repo := saveRepo st.repo n2 }, r.2)

/-- The selection predicate of the scheduled sweep: status PENDING and
scheduledAt <= now (records without scheduledAt never match the
LessThanOrEqual condition). -/
def isDuePending (now : Nat) (n : Notification) : Bool :=
  n.status == NotificationStatus.pending &&
    match n.scheduledAt with
    | some t => decide (t ≤ now)
    | none => false

/-- The body of the sweep loop for one fetched record. -/
def sweepStep (now : Nat) (st : ServiceState) (n : Notification) :
    ServiceState :=
  if hasExpired n.expiresAt now then
    { st with repo := saveRepo st.repo ({ n with
        status := NotificationStatus.failed
        errorMessage := some "Notification expired before delivery" }) }
  else
    { st with
        repo := saveRepo st.repo ({ n with status := NotificationStatus.queued })
        queue := st.queue ++ [mkDispatchJob n.id n.priority] }

/-- processScheduledNotifications (notification.service.ts lines 202-239):
fetch up to 100 due PENDING records, then run the loop body on each. -/
def processScheduledNotifications (now : Nat) (st : ServiceState) :
    ServiceState :=
  ((st.repo.filter (isDuePending now)).take 100).foldl (sweepStep now) st

/-- Insertion into a list sorted by createdAt descending. -/
def insertByCreatedAtDesc (n : Notification) :
    List Notification → List Notification
  | [] => [n]
  | m :: ms =>
    if m.createdAt ≤ n.createdAt then n :: m :: ms
    else m :: insertByCreatedAtDesc n ms

/-- ORDER BY createdAt DESC. -/
def sortByCreatedAtDesc : List Notification → List Notification
  | [] => []
  | n :: ns => insertByCreatedAtDesc n (sortByCreatedAtDesc ns)

/-- The optional workspace filter shared by the query builders. -/
def matchesWorkspace (ws : Option String) (n : Notification) : Bool :=
  match ws with
  | some w => n.workspaceId == some w
  | none => true

/-- getUserNotifications (notification.service.ts lines 138-163): filter by
user, type IN_APP and optional workspace; order by createdAt descending;
skip page*limit and take limit; total counts all matching rows. -/
def getUserNotifications (userId : String) (workspaceId : Option String)
    (page : Nat) (limit : Nat) (st : ServiceState) :
    List NotificationResponse × Nat :=
  let matching := st.repo.filter (fun n =>
    n.userId == userId && n.type == NotificationType.inApp &&
      matchesWorkspace workspaceId n)
  let pageItems := ((sortByCreatedAtDesc matching).drop (page * limit)).take
    limit
  (pageItems.map toResponse, matching.length)

/-- getUnreadCount (notification.service.ts lines 165-177). -/
def getUnreadCount (userId : String) (workspaceId : Option String)
    (st : ServiceState) : Nat :=
  (st.repo.filter (fun n =>
    n.userId == userId && n.type == NotificationType.inApp &&
      !(n.status == NotificationStatus.read) &&
      matchesWorkspace workspaceId n)).length

/-- markAsRead (notification.service.ts lines 179-184): an unconditional
update of status and readAt on every row matching id IN ids AND userId. -/
def markAsRead (userId : String) (notificationIds : List String) (now : Nat)
    (st : ServiceState) : ServiceState :=
  { st with repo := st.repo.map (fun n =>
      if notificationIds.contains n.id && n.userId == userId then
        { n with status := NotificationStatus.read, readAt := some now }
      else n) }

/-- markAllAsRead (notification.service.ts lines 186-199): update rows of
the user whose status is not READ, optionally restricted to a workspace. -/
def markAllAsRead (userId : String) (workspaceId : Option String) (now : Nat)
    (st : ServiceState) : ServiceState :=
  { st with repo := st.repo.map (fun n =>
      if n.userId == userId && !(n.status == NotificationStatus.read) &&
          matchesWorkspace workspaceId n then
        { n with status := NotificationStatus.read, readAt := some now }
      else n) }

/-- getFailedNotifications (notification.service.ts lines 482-488). -/
def getFailedNotifications (limit : Nat) (st : ServiceState) :
    List Notification :=
  (sortByCreatedAtDesc (st.repo.filter
      (fun n => n.status == NotificationStatus.failed))).take limit

/-- retryNotification (notification.service.ts lines 490-514). -/
def retryNotification (nid : String) (st : ServiceState) :
    Bool × ServiceState :=
  match findById st.repo nid with
  | none => (false, st)
  | some n =>
    if !(n.status == NotificationStatus.failed) then (false, st)
    else
      (true,
       { st with
           repo := saveRepo st.repo
             ({ n with status := NotificationStatus.queued
                       errorMessage := none })
           queue := st.queue ++ [mkDispatchJob nid n.priority] })

/-- Test harness for the rate limiter: one user calling send repeatedly,
each call at the given wall-clock time; records the admission verdicts. -/
def runSendCalls (u : String) (times : List Nat)
    (limits : String → Option RateEntry) :
    List Bool × (String → Option RateEntry) :=
  match times with
  | [] => ([], limits)
  | t :: ts =>
    let r := checkRateLimit u t limits
    let rest := runSendCalls u ts r.2
    (r.1 :: rest.1, rest.2)

/-- The state with every non in-app record removed from the repository;
used to express that the in-app query surface never considers push, email
or sms records. -/
def restrictInApp (st : ServiceState) : ServiceState :=
  { st with
      repo := st.repo.filter (fun n => n.type == NotificationType.inApp) }

/-- An empty service state (fresh repository, empty queue, no rate-limit
entries), used by the concrete evaluations below. -/
def stEmpty : ServiceState :=
  { repo := [], queue := [], rateLimits := fun _ => none }

/-- A concrete base record for the concrete evaluations below. -/
def baseN : Notification :=
  { id := "n1", userId := "u1", workspaceId := none
    type := NotificationType.inApp, title := "t", body := "b", data := []
    priority := none, category := none, actionUrl := none, imageUrl := none
    status := NotificationStatus.queued, errorMessage := none, retryCount := 0
    scheduledAt := none, expiresAt := none, sentAt := none, readAt := none
    deliveredAt := none, createdAt := 0 }

/-- A concrete send request for the concrete evaluations below. -/
def dtoEx : SendDto :=
  { userId := "u1", workspaceId := none, type := NotificationType.push
    title := "t", body := "b", data := [], priority := some "high"
    category := none, actionUrl := none, imageUrl := none
    scheduledAt := none, expiresAt := none }

/-- An environment whose push provider reports per-token results given by
the supplied function, used by the concrete evaluations below. -/
def envWith (devices : List String) (result : PushResult) : Env :=
  { getUserDevices := fun _ => devices
    sendToDevices := fun _ _ => result
    sendEmail := fun _ =>
      { success := false, messageId := none, error := some "off" }
    sendSms := fun _ =>
      { success := false, messageId := none, error := some "off" } }

theorem checkRateLimit_fresh (u : String) (now : Nat)
    (limits : String → Option RateEntry) (h : limits u = none) :
    (checkRateLimit u now limits).1 = true ∧
    (checkRateLimit u now limits).2 u =
      some { count := 1, resetAt := now + RATE_LIMIT_WINDOW } := by
  simp [checkRateLimit, h]

/-- Claim C1: for every send request passing admission, the created
notification has status PENDING exactly when scheduledAt is present and
QUEUED otherwise, the record is persisted, and a dispatch job is submitted
to the queue if and only if scheduledAt is absent, with priority derived as
urgent=1, high=2, normal=3, low=4 (default 3), 3 attempts, and exponential
backoff starting at 1000 ms. -/
theorem C1_send_status_and_dispatch
    (canSend : String → Option String → NotificationType → Bool)
    (dto : SendDto) (freshId : String) (now : Nat) (st : ServiceState)
    (hrl : (checkRateLimit dto.userId now st.rateLimits).1 = true)
    (hpref : canSend dto.userId dto.workspaceId dto.type = true) :
    (send canSend dto freshId now st).1 =
      some (toResponse (createFromDto dto freshId now)) ∧
    (createFromDto dto freshId now).status =
      (if dto.scheduledAt.isSome then NotificationStatus.pending
       else NotificationStatus.queued) ∧
    (send canSend dto freshId now st).2.repo =
      saveRepo st.repo (createFromDto dto freshId now) ∧
    (send canSend dto freshId now st).2.queue =
      (if dto.scheduledAt.isNone then
        st.queue ++ [mkDispatchJob freshId dto.priority]
       else st.queue) ∧
    mkDispatchJob freshId dto.priority =
      { name := "send", notificationId := freshId
        priority := some (getPriorityValue dto.priority)
        attempts := some 3, backoffType := some "exponential"
        backoffDelay := some 1000 } ∧
    getPriorityValue (some "urgent") = 1 ∧
    getPriorityValue (some "high") = 2 ∧
    getPriorityValue (some "normal") = 3 ∧
    getPriorityValue (some "low") = 4 ∧
    getPriorityValue none = 3 := by
  refine ⟨?_, rfl, ?_, ?_, rfl, rfl, rfl, rfl, rfl, rfl⟩ <;>
    simp [send, hrl, hpref]

/-- Witness for C1 at a concrete unscheduled request: the dispatch job is
submitted with priority 2 for a high-priority request. -/
theorem C1_witness :
    (send (fun _ _ _ => true) dtoEx "n1" 7 stEmpty).2.queue =
      (if dtoEx.scheduledAt.isNone then
        stEmpty.queue ++ [mkDispatchJob "n1" dtoEx.priority]
       else stEmpty.queue) :=
  (C1_send_status_and_dispatch (fun _ _ _ => true) dtoEx "n1" 7 stEmpty
    (by decide) rfl).2.2.2.1

/-- Claim C7: a send request rejected by the rate limiter or denied by the
preference gate returns a null result, persists no notification record and
submits no queue job; send is a total function, so no error reaches the
caller. -/
theorem C7_admission_failures_silent
    (canSend : String → Option String → NotificationType → Bool)
    (dto : SendDto) (freshId : String) (now : Nat) (st : ServiceState)
    (h : (checkRateLimit dto.userId now st.rateLimits).1 = false ∨
         canSend dto.userId dto.workspaceId dto.type = false) :
    (send canSend dto freshId now st).1 = none ∧
    (send canSend dto freshId now st).2.repo = st.repo ∧
    (send canSend dto freshId now st).2.queue = st.queue := by
  rcases h with h | h
  · simp [send, h]
  · rcases hrl : (checkRateLimit dto.userId now st.rateLimits).1 with _ | _ <;>
      simp [send, h, hrl]

/-- Witness for C7: a user whose window already holds 100 notifications is
silently dropped. -/
theorem C7_witness :
    (send (fun _ _ _ => true) dtoEx "n1" 7
      { stEmpty with rateLimits := fun u =>
          if u == "u1" then some { count := 100, resetAt := 60000 }
          else none }).1 = none :=
  (C7_admission_failures_silent (fun _ _ _ => true) dtoEx "n1" 7
    { stEmpty with rateLimits := fun u =>
        if u == "u1" then some { count := 100, resetAt := 60000 } else none }
    (Or.inl (by decide))).1

/-- Claim C5: retryNotification returns false and mutates nothing when the
record is absent or not FAILED; on a FAILED record it clears errorMessage,
sets status QUEUED, persists the record, submits exactly one new queue job
and returns true. -/
theorem C5_retry_only_failed (nid : String) (st : ServiceState) :
    (findById st.repo nid = none → retryNotification nid st = (false, st)) ∧
    (∀ n, findById st.repo nid = some n →
      n.status ≠ NotificationStatus.failed →
      retryNotification nid st = (false, st)) ∧
    (∀ n, findById st.repo nid = some n →
      n.status = NotificationStatus.failed →
      (retryNotification nid st).1 = true ∧
      (retryNotification nid st).2.repo =
        saveRepo st.repo
          { n with status := NotificationStatus.queued
                   errorMessage := none } ∧
      (retryNotification nid st).2.queue =
        st.queue ++ [mkDispatchJob nid n.priority]) := by
  refine ⟨fun h => by simp [retryNotification, h], fun n h hs => ?_,
    fun n h hs => ?_⟩
  · simp [retryNotification, h, hs]
  · simp [retryNotification, h, hs]

/-- Witness for C5: a concrete FAILED record is retried, and a concrete
QUEUED record is not. -/
theorem C5_witness :
    (retryNotification "n1"
      { stEmpty with repo := [{ baseN with
          status := NotificationStatus.failed
          errorMessage := some "boom" }] }).1 = true :=
  ((C5_retry_only_failed "n1"
      { stEmpty with repo := [{ baseN with
          status := NotificationStatus.failed
          errorMessage := some "boom" }] }).2.2
    { baseN with status := NotificationStatus.failed
                 errorMessage := some "boom" }
    (by decide) rfl).1

/-- Claim C8 as stated is false: markAsRead updates readAt unconditionally
on every matching row, so a second call at a later clock overwrites the
readAt stamp of records that are already READ.  Concretely: first call at
time 5 leaves the record READ with readAt 5, the second call at time 10
rewrites readAt to 10. -/
theorem C8_counterexample :
    (markAsRead "u1" ["n1"] 5
        { stEmpty with repo := [baseN] }).repo.map
        (fun n => (n.status, n.readAt)) =
      [(NotificationStatus.read, some 5)] ∧
    (markAsRead "u1" ["n1"] 10 (markAsRead "u1" ["n1"] 5
        { stEmpty with repo := [baseN] })).repo.map
        (fun n => (n.status, n.readAt)) =
      [(NotificationStatus.read, some 10)] := by
  constructor <;> decide

/-- Claim C8 amended: a second markAsRead with the same id set keeps every
matched record in status READ but overwrites its readAt with the second
call's clock — the composite of the two calls equals a single call at the
second clock, so the repetition is a true no-op exactly when the two calls
carry the same timestamp. -/
theorem C8_mark_as_read_repeat (u : String) (ids : List String)
    (t1 t2 : Nat) (st : ServiceState) :
    markAsRead u ids t2 (markAsRead u ids t1 st) = markAsRead u ids t2 st ∧
    markAsRead u ids t1 (markAsRead u ids t1 st) = markAsRead u ids t1 st := by
  have key : ∀ s1 s2 : Nat,
      markAsRead u ids s2 (markAsRead u ids s1 st) = markAsRead u ids s2 st := by
    intro s1 s2
    simp only [markAsRead, List.map_map]
    congr 1
    apply List.map_congr_left
    intro n _
    by_cases hc : n.id ∈ ids ∧ n.userId = u <;> simp [hc]
  exact ⟨key t1 t2, key t1 t1⟩

/-- Claim C9: markAllAsRead scoped to a workspace marks exactly the given
user's non-READ records of that workspace as READ with readAt = now, and
leaves every other record — other workspaces of the same user, other users,
records already READ — entirely unchanged; the queue and rate-limit state
are untouched. -/
theorem C9_mark_all_scoped (u w : String) (now : Nat) (st : ServiceState) :
    (∀ i : Nat, (markAllAsRead u (some w) now st).repo[i]? =
      (st.repo[i]?).map (fun n =>
        if n.userId = u ∧ n.status ≠ NotificationStatus.read ∧
            n.workspaceId = some w then
          { n with status := NotificationStatus.read, readAt := some now }
        else n)) ∧
    (markAllAsRead u (some w) now st).queue = st.queue ∧
    (markAllAsRead u (some w) now st).rateLimits = st.rateLimits := by
  refine ⟨fun i => ?_, rfl, rfl⟩
  show (st.repo.map _)[i]? = _
  rw [List.getElem?_map]
  cases st.repo[i]? with
  | none => rfl
  | some n =>
    by_cases h1 : n.userId = u
    · by_cases h2 : n.status = NotificationStatus.read
      · simp [markAllAsRead, matchesWorkspace, h1, h2]
      · by_cases h3 : n.workspaceId = some w <;>
          simp [markAllAsRead, matchesWorkspace, h1, h2, h3]
    · simp [markAllAsRead, matchesWorkspace, h1]

theorem filter_of_filter_weaker {α : Type} (p q : α → Bool) (l : List α)
    (h : ∀ a, p a = true → q a = true) :
    (l.filter q).filter p = l.filter p := by
  induction l with
  | nil => rfl
  | cons a l ih =>
    by_cases hq : q a = true
    · by_cases hp : p a = true <;> simp [List.filter_cons, hq, hp, ih]
    · have hp : ¬ p a = true := fun hp => hq (h a hp)
      simp [List.filter_cons, hq, hp, ih]

theorem mem_insertByCreatedAtDesc {m n : Notification}
    {l : List Notification} :
    m ∈ insertByCreatedAtDesc n l ↔ m = n ∨ m ∈ l := by
  induction l with
  | nil => simp [insertByCreatedAtDesc]
  | cons a l ih =>
    by_cases h : a.createdAt ≤ n.createdAt
    · simp [insertByCreatedAtDesc, h]
    · simp [insertByCreatedAtDesc, h, ih]
      tauto

theorem mem_sortByCreatedAtDesc {m : Notification} {l : List Notification} :
    m ∈ sortByCreatedAtDesc l ↔ m ∈ l := by
  induction l with
  | nil => simp [sortByCreatedAtDesc]
  | cons a l ih =>
    simp [sortByCreatedAtDesc, mem_insertByCreatedAtDesc, ih]

/-- Claim C10: getUserNotifications and getUnreadCount consider only in-app
records: deleting every push, email and sms record from the repository
changes neither the returned page nor the total nor the unread count, and
every returned item has type in-app. -/
theorem C10_in_app_only (u : String) (ws : Option String)
    (page limit : Nat) (st : ServiceState) :
    getUserNotifications u ws page limit st =
      getUserNotifications u ws page limit (restrictInApp st) ∧
    getUnreadCount u ws st = getUnreadCount u ws (restrictInApp st) ∧
    ((getUserNotifications u ws page limit st).1.all
      (fun r => r.type == NotificationType.inApp)) = true := by
  refine ⟨?_, ?_, ?_⟩
  · have hm : ((restrictInApp st).repo.filter (fun n =>
        n.userId == u && n.type == NotificationType.inApp &&
          matchesWorkspace ws n)) =
        st.repo.filter (fun n =>
          n.userId == u && n.type == NotificationType.inApp &&
            matchesWorkspace ws n) := by
      apply filter_of_filter_weaker
      intro a ha
      simp only [Bool.and_eq_true] at ha
      exact ha.1.2
    simp only [getUserNotifications, hm]
  · have hm : ((restrictInApp st).repo.filter (fun n =>
        n.userId == u && n.type == NotificationType.inApp &&
          !(n.status == NotificationStatus.read) &&
          matchesWorkspace ws n)) =
        st.repo.filter (fun n =>
          n.userId == u && n.type == NotificationType.inApp &&
            !(n.status == NotificationStatus.read) &&
            matchesWorkspace ws n) := by
      apply filter_of_filter_weaker
      intro a ha
      simp only [Bool.and_eq_true] at ha
      exact ha.1.1.2
    simp only [getUnreadCount, hm]
  · rw [List.all_eq_true]
    intro r hr
    simp only [getUserNotifications, List.mem_map] at hr
    obtain ⟨m, hm, hrm⟩ := hr
    have hm2 := List.drop_subset _ _ (List.take_subset _ _ hm)
    rw [mem_sortByCreatedAtDesc, List.mem_filter] at hm2
    have := hm2.2
    simp only [Bool.and_eq_true] at this
    rw [← hrm]
    exact this.1.2

theorem map_range_decide_false (c : Nat) (h : RATE_LIMIT_MAX ≤ c)
    (len : Nat) :
    (List.range len).map (fun i => decide (c + i < RATE_LIMIT_MAX)) =
      List.replicate len false := by
  rw [List.eq_replicate_iff]
  refine ⟨by simp, ?_⟩
  intro b hb
  simp only [List.mem_map, List.mem_range] at hb
  obtain ⟨i, _, hi⟩ := hb
  rw [← hi, decide_eq_false_iff_not]
  omega

theorem runSendCalls_in_window (u : String) (R : Nat) (ts : List Nat) :
    ∀ (c : Nat) (limits : String → Option RateEntry),
    limits u = some { count := c, resetAt := R } →
    (∀ t ∈ ts, t ≤ R) →
    (runSendCalls u ts limits).1 =
      (List.range ts.length).map
        (fun i => decide (c + i < RATE_LIMIT_MAX)) := by
  induction ts with
  | nil => intro c limits _ _; rfl
  | cons t ts ih =>
    intro c limits hu hw
    have hR : ¬ (R < t) := not_lt.mpr (hw t (by simp))
    have hw2 : ∀ t2 ∈ ts, t2 ≤ R := fun t2 ht2 => hw t2 (by simp [ht2])
    by_cases hc : RATE_LIMIT_MAX ≤ c
    · simp only [runSendCalls, checkRateLimit, hu, hR, if_false, hc, if_true]
      rw [ih c limits hu hw2]
      simp only [map_range_decide_false c hc, List.length_cons]
      rfl
    · simp only [runSendCalls, checkRateLimit, hu, hR, if_false, hc, if_true]
      rw [ih (c + 1) _ (by simp) hw2]
      rw [List.length_cons, List.range_succ_eq_map, List.map_cons,
        List.map_map]
      refine List.cons_eq_cons.mpr ⟨?_, ?_⟩
      · symm
        rw [decide_eq_true_eq]
        omega
      · apply List.map_congr_left
        intro i _
        simp only [Function.comp]
        rw [decide_eq_decide]
        omega

/-- Claim C2: per call, the rate limiter admits and resets to count 1 with
resetAt = now + 60s when no entry exists or the entry's resetAt has passed,
rejects without mutating when count has reached 100 inside the window, and
otherwise increments and admits; consequently a fresh user calling send
repeatedly within one 60-second window is admitted on calls 1..100 and
rejected from call 101 on. -/
theorem C2_rate_limiter_window (u : String) (now : Nat)
    (limits : String → Option RateEntry) (t0 : Nat) (ts : List Nat)
    (hw : ∀ t ∈ ts, t0 ≤ t ∧ t < t0 + RATE_LIMIT_WINDOW) :
    (limits u = none →
      (checkRateLimit u now limits).1 = true ∧
      (checkRateLimit u now limits).2 u =
        some { count := 1, resetAt := now + RATE_LIMIT_WINDOW }) ∧
    (∀ e, limits u = some e → e.resetAt < now →
      (checkRateLimit u now limits).1 = true ∧
      (checkRateLimit u now limits).2 u =
        some { count := 1, resetAt := now + RATE_LIMIT_WINDOW }) ∧
    (∀ e, limits u = some e → ¬ e.resetAt < now →
      RATE_LIMIT_MAX ≤ e.count →
      (checkRateLimit u now limits).1 = false ∧
      (checkRateLimit u now limits).2 = limits) ∧
    (∀ e, limits u = some e → ¬ e.resetAt < now →
      e.count < RATE_LIMIT_MAX →
      (checkRateLimit u now limits).1 = true ∧
      (checkRateLimit u now limits).2 u =
        some { count := e.count + 1, resetAt := e.resetAt }) ∧
    (limits u = none →
      (runSendCalls u (t0 :: ts) limits).1 =
        (List.range (ts.length + 1)).map
          (fun i => decide (i < RATE_LIMIT_MAX))) := by
  refine ⟨?_, ?_, ?_, ?_, ?_⟩
  · intro h
    constructor <;> simp [checkRateLimit, h]
  · intro e h hreset
    constructor <;> simp [checkRateLimit, h, hreset]
  · intro e h hreset hcount
    constructor <;> simp [checkRateLimit, h, hreset, hcount]
  · intro e h hreset hcount
    have hc2 : ¬ RATE_LIMIT_MAX ≤ e.count := not_le.mpr hcount
    constructor <;> simp [checkRateLimit, h, hreset, hc2]
  · intro h
    simp only [runSendCalls, checkRateLimit, h]
    rw [runSendCalls_in_window u (t0 + RATE_LIMIT_WINDOW) ts 1 _ (by simp)
      (fun t ht => Nat.le_of_lt (hw t ht).2)]
    rw [List.range_succ_eq_map, List.map_cons, List.map_map]
    refine List.cons_eq_cons.mpr ⟨by decide, ?_⟩
    apply List.map_congr_left
    intro i _
    simp only [Function.comp]
    rw [decide_eq_decide]
    omega

/-- Witness for C2: a fresh user making 151 calls at one instant is
admitted on the first 100 calls and rejected on the remaining 51. -/
theorem C2_witness :
    (runSendCalls "u1" (0 :: List.replicate 150 0) (fun _ => none)).1 =
      (List.range 151).map (fun i => decide (i < RATE_LIMIT_MAX)) := by
  have h := (C2_rate_limiter_window "u1" 0 (fun _ => none) 0
    (List.replicate 150 0)
    (fun t ht => by rw [List.eq_of_mem_replicate ht]; exact ⟨Nat.le_refl 0, by decide⟩)).2.2.2.2 rfl
  simpa using h

theorem find?_map_replace_self (l : List Notification) (n : Notification)
    (hl : l.any (fun m => m.id == n.id) = true) :
    (l.map (fun m => if m.id == n.id then n else m)).find?
      (fun m => m.id == n.id) = some n := by
  induction l with
  | nil => simp at hl
  | cons a l ih =>
    rw [List.map_cons]
    by_cases ha : (a.id == n.id) = true
    · rw [if_pos ha]
      exact @List.find?_cons_of_pos _ (fun m => m.id == n.id) n _ (by simp)
    · rw [if_neg ha,
        @List.find?_cons_of_neg _ (fun m => m.id == n.id) a _ ha]
      apply ih
      have ha2 : (a.id == n.id) = false := by
        simpa using ha
      simpa [List.any_cons, ha2] using hl

theorem find?_map_replace_ne (l : List Notification) (n : Notification)
    (nid : String) (h : ¬ n.id = nid) :
    (l.map (fun m => if m.id == n.id then n else m)).find?
      (fun m => m.id == nid) = l.find? (fun m => m.id == nid) := by
  induction l with
  | nil => rfl
  | cons a l ih =>
    rw [List.map_cons]
    by_cases ha : (a.id == n.id) = true
    · rw [if_pos ha]
      have han : a.id = n.id := by simpa using ha
      have hpn : ¬ ((n.id == nid) = true) := by simpa using h
      have hpa : ¬ ((a.id == nid) = true) := by
        rw [han]
        exact hpn
      rw [@List.find?_cons_of_neg _ (fun m => m.id == nid) n _ hpn,
        @List.find?_cons_of_neg _ (fun m => m.id == nid) a _ hpa]
      exact ih
    · rw [if_neg ha]
      by_cases hp : (a.id == nid) = true
      · rw [@List.find?_cons_of_pos _ (fun m => m.id == nid) a _ hp,
          @List.find?_cons_of_pos _ (fun m => m.id == nid) a _ hp]
      · rw [@List.find?_cons_of_neg _ (fun m => m.id == nid) a _ hp,
          @List.find?_cons_of_neg _ (fun m => m.id == nid) a _ hp]
        exact ih

theorem findById_saveRepo_self (repo : List Notification)
    (n : Notification) :
    findById (saveRepo repo n) n.id = some n := by
  unfold saveRepo findById
  cases hany : repo.any (fun m => m.id == n.id) with
  | true =>
    rw [if_pos rfl]
    simpa using find?_map_replace_self repo n hany
  | false =>
    rw [if_neg Bool.false_ne_true]
    rw [List.find?_append]
    have hnone : repo.find? (fun m => m.id == n.id) = none := by
      rw [List.find?_eq_none]
      intro x hx hx2
      rw [List.any_eq_false] at hany
      exact hany x hx hx2
    rw [hnone]
    simp

theorem findById_saveRepo_ne (repo : List Notification) (n : Notification)
    (nid : String) (h : ¬ n.id = nid) :
    findById (saveRepo repo n) nid = findById repo nid := by
  unfold saveRepo findById
  cases hany : repo.any (fun m => m.id == n.id) with
  | true =>
    rw [if_pos rfl]
    simpa using find?_map_replace_ne repo n nid h
  | false =>
    rw [if_neg Bool.false_ne_true]
    rw [List.find?_append]
    have hpn : ¬ ((n.id == nid) = true) := by simpa using h
    rw [@List.find?_cons_of_neg _ (fun m => m.id == nid) n _ hpn]
    simp

theorem mem_saveRepo_same_id (repo : List Notification) (n m : Notification)
    (hm : m ∈ saveRepo repo n) (hid : m.id = n.id) : m = n := by
  unfold saveRepo at hm
  cases hany : repo.any (fun m2 => m2.id == n.id) with
  | true =>
    rw [hany] at hm
    simp only [if_true] at hm
    rw [List.mem_map] at hm
    obtain ⟨m0, _, hm0⟩ := hm
    by_cases h0 : (m0.id == n.id) = true
    · rw [if_pos h0] at hm0
      exact hm0.symm
    · rw [if_neg h0] at hm0
      rw [← hm0] at hid
      exact absurd (by simpa using hid) h0
  | false =>
    rw [hany] at hm
    simp only [Bool.false_eq_true, if_false, List.mem_append,
      List.mem_singleton] at hm
    rcases hm with hm | hm
    · exfalso
      rw [List.any_eq_false] at hany
      exact hany m hm (by simpa using hid)
    · exact hm

theorem findById_id (repo : List Notification) (nid : String)
    (n : Notification) (h : findById repo nid = some n) : n.id = nid := by
  unfold findById at h
  have := List.find?_some h
  simpa using this

/-- Claim C6 as stated is false in the spelling of the error message: on a
push record whose user has zero registered devices the service records
errorMessage "No registered devices" (capital N), not "no registered
devices".  Evaluated at a concrete record. -/
theorem C6_counterexample :
    ((processNotification
        (envWith [] { success := true, successCount := 0, failureCount := 0
                      failedTokens := [], errors := [] })
        "n1" 50
        { stEmpty with
            repo := [{ baseN with type := NotificationType.push }] }).1.repo.map
      (fun n => n.errorMessage)) = [some "No registered devices"] ∧
    ¬ (((processNotification
        (envWith [] { success := true, successCount := 0, failureCount := 0
                      failedTokens := [], errors := [] })
        "n1" 50
        { stEmpty with
            repo := [{ baseN with type := NotificationType.push }] }).1.repo.map
      (fun n => n.errorMessage)) = [some "no registered devices"]) := by
  constructor <;> decide

/-- Claim C6 amended: when the device directory returns zero tokens for a
push record, process makes no provider call, marks the record FAILED with
errorMessage "No registered devices" (capital N as written by the service)
and still stamps sentAt with the processing time. -/
theorem C6_no_devices_failed (env : Env) (nid : String) (now : Nat)
    (st : ServiceState) (n : Notification)
    (hfind : findById st.repo nid = some n)
    (hexp : hasExpired n.expiresAt now = false)
    (htype : n.type = NotificationType.push)
    (hdev : env.getUserDevices n.userId = []) :
    (processNotification env nid now st).2 = [] ∧
    findById (processNotification env nid now st).1.repo n.id =
      some { n with status := NotificationStatus.failed
                    errorMessage := some "No registered devices"
                    sentAt := some now } := by
  have key := findById_saveRepo_self st.repo
    ({ n with status := NotificationStatus.failed
              errorMessage := some "No registered devices"
              sentAt := some now })
  constructor
  · simp [processNotification, hfind, hexp, htype, sendPushNotification,
      hdev]
  · simp [processNotification, hfind, hexp, htype, sendPushNotification,
      hdev]
    simpa [htype] using key

/-- Witness for C6 at a concrete push record with no devices. -/
theorem C6_witness :
    findById (processNotification
        (envWith [] { success := true, successCount := 0, failureCount := 0
                      failedTokens := [], errors := [] })
        "n1" 50
        { stEmpty with
            repo := [{ baseN with type := NotificationType.push }] }).1.repo
      "n1" =
      some { baseN with type := NotificationType.push
                        status := NotificationStatus.failed
                        errorMessage := some "No registered devices"
                        sentAt := some 50 } :=
  (C6_no_devices_failed
    (envWith [] { success := true, successCount := 0, failureCount := 0
                  failedTokens := [], errors := [] })
    "n1" 50
    { stEmpty with repo := [{ baseN with type := NotificationType.push }] }
    { baseN with type := NotificationType.push }
    (by decide) rfl rfl rfl).2

theorem getFailed_excludes (lim : Nat) (st2 : ServiceState)
    (repo0 : List Notification) (final : Notification)
    (hrepo : st2.repo = saveRepo repo0 final)
    (hstat : ¬ final.status = NotificationStatus.failed) :
    ∀ m ∈ getFailedNotifications lim st2, ¬ m.id = final.id := by
  intro m hm hid
  unfold getFailedNotifications at hm
  have hm2 := List.take_subset _ _ hm
  rw [mem_sortByCreatedAtDesc, List.mem_filter] at hm2
  obtain ⟨hmem, hfail⟩ := hm2
  rw [hrepo] at hmem
  have hmn := mem_saveRepo_same_id repo0 final m hmem hid
  rw [hmn] at hfail
  exact hstat (by simpa using hfail)

/-- Claim C4: on a push record whose multicast has at least one success and
at least one failure, the final status is SENT (never FAILED) with a
non-empty errorMessage naming the failure count, and the record is absent
from getFailedNotifications; when every destination fails the record is
FAILED with the first provider-reported error.  The hypothesis hcons is
the invariant of the firebase provider: success is reported exactly when
failureCount is zero. -/
theorem C4_partial_multicast (env : Env) (nid : String) (now lim : Nat)
    (st : ServiceState) (n : Notification) (result : PushResult)
    (hfind : findById st.repo nid = some n)
    (hexp : hasExpired n.expiresAt now = false)
    (htype : n.type = NotificationType.push)
    (hdev : ¬ env.getUserDevices n.userId = [])
    (hres : env.sendToDevices (env.getUserDevices n.userId)
      (pushPayloadOf n) = result)
    (hcons : result.success = true ↔ result.failureCount = 0) :
    (0 < result.successCount → 0 < result.failureCount →
      findById (processNotification env nid now st).1.repo n.id =
        some { n with
          status := NotificationStatus.sent
          errorMessage := some ("Partial delivery: " ++
            toString result.failureCount ++ " failed")
          sentAt := some now } ∧
      ("Partial delivery: " ++ toString result.failureCount ++ " failed")
        ≠ "" ∧
      (∀ m ∈ getFailedNotifications lim (processNotification env nid now st).1,
        ¬ m.id = n.id)) ∧
    (result.successCount = 0 → 0 < result.failureCount →
      ∀ tk e rest, result.errors = (tk, e) :: rest → ¬ e = "" →
      findById (processNotification env nid now st).1.repo n.id =
        some { n with
          status := NotificationStatus.failed
          errorMessage := some e
          sentAt := some now }) := by
  have hlen : ¬ (env.getUserDevices n.userId).length = 0 := by
    simpa [List.length_eq_zero] using hdev
  constructor
  · intro hs hf
    have hsucc : result.success = false := by
      rcases hb : result.success with _ | _
      · rfl
      · exfalso
        have := hcons.mp hb
        omega
    have key := findById_saveRepo_self st.repo
      ({ n with
          status := NotificationStatus.sent
          errorMessage := some ("Partial delivery: " ++
            toString result.failureCount ++ " failed")
          sentAt := some now })
    refine ⟨?_, ?_, ?_⟩
    · simp [processNotification, hfind, hexp, htype, sendPushNotification,
        hlen, hres, hsucc, hs]
      simpa [htype] using key
    · intro h
      have h2 := congrArg String.length h
      rw [String.length_append, String.length_append] at h2
      have h3 : ("Partial delivery: ".length) = 18 := rfl
      have h4 : (" failed".length) = 7 := rfl
      have h5 : ("".length) = 0 := rfl
      omega
    · intro m hm
      have hx := getFailed_excludes lim (processNotification env nid now st).1
        st.repo
        ({ n with
            status := NotificationStatus.sent
            errorMessage := some ("Partial delivery: " ++
              toString result.failureCount ++ " failed")
            sentAt := some now })
        (by simp [processNotification, hfind, hexp, htype,
              sendPushNotification, hlen, hres, hsucc, hs])
        (by simp)
        m hm
      simpa using hx
  · intro hs0 hf tk e rest herr he
    have hsucc : result.success = false := by
      rcases hb : result.success with _ | _
      · rfl
      · exfalso
        have := hcons.mp hb
        omega
    have hbe : (e == "") = false := by simpa using he
    have key := findById_saveRepo_self st.repo
      ({ n with
          status := NotificationStatus.failed
          errorMessage := some e
          sentAt := some now })
    simp [processNotification, hfind, hexp, htype, sendPushNotification,
      hlen, hres, hsucc, hs0, herr, firstErrorOr, hbe]
    simpa [htype] using key

/-- Witness for C4: three tokens, two delivered, one failed — the record
ends SENT with the partial-delivery message. -/
theorem C4_witness :
    findById (processNotification
        (envWith ["t1", "t2", "t3"]
          { success := false, successCount := 2, failureCount := 1
            failedTokens := ["t3"], errors := [("t3", "boom")] })
        "n1" 50
        { stEmpty with
            repo := [{ baseN with type := NotificationType.push }] }).1.repo
      "n1" =
      some { baseN with
        type := NotificationType.push
        status := NotificationStatus.sent
        errorMessage := some "Partial delivery: 1 failed"
        sentAt := some 50 } := by
  have h := ((C4_partial_multicast
    (envWith ["t1", "t2", "t3"]
      { success := false, successCount := 2, failureCount := 1
        failedTokens := ["t3"], errors := [("t3", "boom")] })
    "n1" 50 50
    { stEmpty with repo := [{ baseN with type := NotificationType.push }] }
    { baseN with type := NotificationType.push }
    { success := false, successCount := 2, failureCount := 1
      failedTokens := ["t3"], errors := [("t3", "boom")] }
    (by decide) rfl rfl (by decide) rfl (by decide)).1
    (by decide) (by decide)).1
  simpa using h

theorem sweepStep_repo_ne (now : Nat) (s : ServiceState) (a : Notification)
    (nid : String) (ha : ¬ a.id = nid) :
    findById (sweepStep now s a).repo nid = findById s.repo nid := by
  unfold sweepStep
  by_cases he : hasExpired a.expiresAt now = true
  · rw [if_pos he]
    exact findById_saveRepo_ne s.repo _ nid ha
  · rw [if_neg he]
    exact findById_saveRepo_ne s.repo _ nid ha

theorem sweepStep_queue_ne (now : Nat) (s : ServiceState) (a : Notification)
    (nid : String) (ha : ¬ a.id = nid) :
    (sweepStep now s a).queue.filter (fun j => j.notificationId == nid) =
      s.queue.filter (fun j => j.notificationId == nid) := by
  unfold sweepStep
  by_cases he : hasExpired a.expiresAt now = true
  · rw [if_pos he]
  · rw [if_neg he]
    show (s.queue ++ [mkDispatchJob a.id a.priority]).filter _ = _
    rw [List.filter_append]
    simp [mkDispatchJob, ha]

theorem sweep_fold_frame (now : Nat) (L : List Notification) (nid : String)
    (h : ∀ m ∈ L, ¬ m.id = nid) :
    ∀ s : ServiceState,
    findById ((L.foldl (sweepStep now) s)).repo nid = findById s.repo nid ∧
    ((L.foldl (sweepStep now) s)).queue.filter
        (fun j => j.notificationId == nid) =
      s.queue.filter (fun j => j.notificationId == nid) := by
  induction L with
  | nil => intro s; exact ⟨rfl, rfl⟩
  | cons a L ih =>
    intro s
    have ha : ¬ a.id = nid := h a (by simp)
    have hL : ∀ m ∈ L, ¬ m.id = nid := fun m hm => h m (by simp [hm])
    rw [List.foldl_cons]
    obtain ⟨ih1, ih2⟩ := ih hL (sweepStep now s a)
    exact ⟨ih1.trans (sweepStep_repo_ne now s a nid ha),
      ih2.trans (sweepStep_queue_ne now s a nid ha)⟩

/-- Claim C3 as stated is false in the spelling of the failure reason: an
expired scheduled record is failed by the sweep with errorMessage
"Notification expired before delivery", not "expired before delivery".
Evaluated at a concrete expired record. -/
theorem C3_counterexample :
    ((processScheduledNotifications 100
        { stEmpty with repo := [{ baseN with
            status := NotificationStatus.pending
            scheduledAt := some 0
            expiresAt := some 5 }] }).repo.map
      (fun n => n.errorMessage)) =
      [some "Notification expired before delivery"] ∧
    ¬ (((processScheduledNotifications 100
        { stEmpty with repo := [{ baseN with
            status := NotificationStatus.pending
            scheduledAt := some 0
            expiresAt := some 5 }] }).repo.map
      (fun n => n.errorMessage)) = [some "expired before delivery"]) := by
  constructor <;> decide

/-- Claim C3 amended: the sweep selects at most 100 PENDING records with
scheduledAt <= now; each selected record that is already expired is
persisted as FAILED with errorMessage "Notification expired before
delivery" (the exact string the service writes) and no dispatch job is
submitted for it, while each live selected record is persisted as QUEUED
and exactly one dispatch job is submitted for it, carrying the same
priority/attempts/backoff policy as send step 5.  Repository ids are
assumed unique (the database primary key). -/
theorem C3_sweep_amended (now : Nat) (st : ServiceState)
    (hnd : (st.repo.map (fun n => n.id)).Nodup)
    (n : Notification)
    (hmem : n ∈ (st.repo.filter (isDuePending now)).take 100) :
    ((st.repo.filter (isDuePending now)).take 100).length ≤ 100 ∧
    isDuePending now n = true ∧
    (hasExpired n.expiresAt now = true →
      findById (processScheduledNotifications now st).repo n.id =
        some { n with
          status := NotificationStatus.failed
          errorMessage := some "Notification expired before delivery" } ∧
      (processScheduledNotifications now st).queue.filter
          (fun j => j.notificationId == n.id) =
        st.queue.filter (fun j => j.notificationId == n.id)) ∧
    (hasExpired n.expiresAt now = false →
      findById (processScheduledNotifications now st).repo n.id =
        some { n with status := NotificationStatus.queued } ∧
      (processScheduledNotifications now st).queue.filter
          (fun j => j.notificationId == n.id) =
        st.queue.filter (fun j => j.notificationId == n.id) ++
          [mkDispatchJob n.id n.priority]) ∧
    mkDispatchJob n.id n.priority =
      { name := "send", notificationId := n.id
        priority := some (getPriorityValue n.priority)
        attempts := some 3, backoffType := some "exponential"
        backoffDelay := some 1000 } := by
  have hdue : isDuePending now n = true :=
    List.of_mem_filter (List.take_subset _ _ hmem)
  have hbn : (((st.repo.filter (isDuePending now)).take 100).map
      (fun m => m.id)).Nodup :=
    List.Nodup.sublist
      (List.Sublist.map _ ((List.take_sublist _ _).trans
        (List.filter_sublist _))) hnd
  obtain ⟨L1, L2, hsplit⟩ := List.append_of_mem hmem
  rw [hsplit, List.map_append, List.map_cons] at hbn
  obtain ⟨hn1, hn2, hdisj⟩ := List.nodup_append.mp hbn
  have hnotin2 : n.id ∉ L2.map (fun m => m.id) :=
    (List.nodup_cons.mp hn2).1
  have hL2 : ∀ m ∈ L2, ¬ m.id = n.id := by
    intro m hm heq
    exact hnotin2 (List.mem_map.mpr ⟨m, hm, heq⟩)
  have hL1 : ∀ m ∈ L1, ¬ m.id = n.id := by
    intro m hm heq
    exact hdisj (List.mem_map.mpr ⟨m, hm, heq⟩) (by simp)
  have hfold : processScheduledNotifications now st =
      L2.foldl (sweepStep now)
        (sweepStep now (L1.foldl (sweepStep now) st) n) := by
    unfold processScheduledNotifications
    rw [hsplit, List.foldl_append, List.foldl_cons]
  obtain ⟨hframe1r, hframe1q⟩ := sweep_fold_frame now L1 n.id hL1 st
  refine ⟨List.length_take_le _ _, hdue, ?_, ?_, rfl⟩
  · intro hexp
    obtain ⟨hframe2r, hframe2q⟩ := sweep_fold_frame now L2 n.id hL2
      (sweepStep now (L1.foldl (sweepStep now) st) n)
    rw [hfold]
    constructor
    · rw [hframe2r]
      unfold sweepStep
      rw [if_pos hexp]
      exact findById_saveRepo_self _ _
    · rw [hframe2q]
      unfold sweepStep
      rw [if_pos hexp]
      exact hframe1q
  · intro hexp
    obtain ⟨hframe2r, hframe2q⟩ := sweep_fold_frame now L2 n.id hL2
      (sweepStep now (L1.foldl (sweepStep now) st) n)
    rw [hfold]
    have hexp2 : ¬ hasExpired n.expiresAt now = true := by
      rw [hexp]
      exact Bool.false_ne_true
    constructor
    · rw [hframe2r]
      unfold sweepStep
      rw [if_neg hexp2]
      exact findById_saveRepo_self _ _
    · rw [hframe2q]
      unfold sweepStep
      rw [if_neg hexp2]
      show ((L1.foldl (sweepStep now) st).queue ++
        [mkDispatchJob n.id n.priority]).filter _ = _
      rw [List.filter_append, hframe1q]
      simp [mkDispatchJob]

/-- Witness for C3 at a concrete expired scheduled record: the sweep fails
it with the exact service message and enqueues nothing for it. -/
theorem C3_witness :
    findById (processScheduledNotifications 100
        { stEmpty with repo := [{ baseN with
            status := NotificationStatus.pending
            scheduledAt := some 0
            expiresAt := some 5 }] }).repo "n1" =
      some { baseN with
        status := NotificationStatus.failed
        errorMessage := some "Notification expired before delivery"
        scheduledAt := some 0
        expiresAt := some 5 } := by
  have h := ((C3_sweep_amended 100
    { stEmpty with repo := [{ baseN with
        status := NotificationStatus.pending
        scheduledAt := some 0
        expiresAt := some 5 }] }
    (by decide)
    { baseN with
        status := NotificationStatus.pending
        scheduledAt := some 0
        expiresAt := some 5 }
    (by decide)).2.2.1 rfl).1
  simpa using h
